import Mathlib

/-!
Shallow embedding of the Progressive Deployment Orchestrator of
`containers/deployment/deployment-automation.py` (class `DeploymentAutomation`),
together with proofs of the behavioural properties stated about it.

Modelling conventions:
* Python enums become inductive types with the same constructor names.
* The in-memory dictionaries (`feature_flags`, `active_deployments`) become
  association lists `List (String × _)`; `dict.get` becomes `List.lookup`.
* Python `hash(user_id)` is process-seeded and otherwise opaque, so it is
  passed in as an arbitrary function `pyHash : String → Int`; Python `%` on a
  positive modulus agrees with `Int.emod`, which `%` denotes here.
* `random.randint(0, 99)` (one fresh draw per call) is passed in as the
  explicit argument `randBucket`; two calls of `is_feature_enabled` with
  different draws are modelled by two applications with different `randBucket`.
* Metric values travel through Prometheus JSON as decimal strings; they are
  modelled as exact rationals (`Rat`), as are the threshold comparisons.
* A collaborator call that raises or times out is modelled as `Option.none`
  at the point where the Python `try` would observe the exception.
* Side effects on the cluster (kubectl applies, traffic routing) and writes to
  the plan record become explicit event traces, in program order.
-/

/-! ## Enums (`DeploymentStrategy`, `DeploymentStatus`, `EnvironmentType`) -/

inductive DeploymentStrategy
  | ROLLING_UPDATE
  | BLUE_GREEN
  | CANARY
  | IMMEDIATE
deriving DecidableEq, Repr

inductive DeploymentStatus
  | PENDING
  | IN_PROGRESS
  | VALIDATING
  | COMPLETED
  | FAILED
  | ROLLED_BACK
deriving DecidableEq, Repr

inductive EnvironmentType
  | DEVELOPMENT
  | STAGING
  | PRODUCTION
deriving DecidableEq, Repr

/-- `DeploymentStrategy(value)`: the enum member for a value string, `none`
when the constructor raises `ValueError`. -/
def strategyOfString : String → Option DeploymentStrategy
  | "rolling_update" => some DeploymentStrategy.ROLLING_UPDATE
  | "blue_green" => some DeploymentStrategy.BLUE_GREEN
  | "canary" => some DeploymentStrategy.CANARY
  | "immediate" => some DeploymentStrategy.IMMEDIATE
  | _ => none

/-- `EnvironmentType(value)`: the enum member for a value string, `none` when
the constructor raises `ValueError`. -/
def environmentOfString : String → Option EnvironmentType
  | "development" => some EnvironmentType.DEVELOPMENT
  | "staging" => some EnvironmentType.STAGING
  | "production" => some EnvironmentType.PRODUCTION
  | _ => none

/-! ## Feature flags (`FeatureFlag`, `is_feature_enabled`, `update_feature_flag`) -/

/-- The `FeatureFlag` dataclass. `conditions : Dict[str, Any]` is modelled as
an association list; no modelled operation reads it. -/
structure FeatureFlag where
  name : String
  enabled : Bool
  rollout_percentage : Int
  target_segments : List String
  environments : List String
  conditions : List (String × String)
deriving DecidableEq, Repr

/-- Python truthiness of an optional string argument defaulting to `None`:
`None` and the empty string are falsy. -/
def truthy : Option String → Bool
  | none => false
  | some s => !(s == "")

/-- `DeploymentAutomation.is_feature_enabled`, line for line.  `flags` is
`self.feature_flags`, `pyHash` the process hash function, `randBucket` the
value `random.randint(0, 99)` would produce on this call. -/
def is_feature_enabled (flags : List (String × FeatureFlag)) (pyHash : String → Int)
    (randBucket : Int) (feature_name : String)
    (user_id user_segment environment : Option String) : Bool :=
  match flags.lookup feature_name with
  | none => false
  | some flag =>
    if truthy environment && !(flag.environments.contains (environment.getD "")) then
      false
    else if truthy user_segment && !(flag.target_segments.contains (user_segment.getD "")) &&
        !(flag.target_segments.contains "all") then
      false
    else if flag.rollout_percentage < 100 then
      if truthy user_id then
        decide (pyHash (user_id.getD "") % 100 < flag.rollout_percentage)
      else
        decide (randBucket < flag.rollout_percentage)
    else
      flag.enabled

/-- The flag table installed by `DeploymentAutomation._load_feature_flags`. -/
def load_feature_flags : List (String × FeatureFlag) :=
  [("enhanced_video_processing",
    { name := "enhanced_video_processing", enabled := false, rollout_percentage := 0,
      target_segments := ["beta_users"], environments := ["staging"], conditions := [] }),
   ("ai_inference_v2",
    { name := "ai_inference_v2", enabled := true, rollout_percentage := 25,
      target_segments := ["premium_users"], environments := ["staging", "production"],
      conditions := [("user_tier", "premium")] }),
   ("real_time_collaboration",
    { name := "real_time_collaboration", enabled := true, rollout_percentage := 100,
      target_segments := ["all"], environments := ["production"], conditions := [] })]

/-- The keyword arguments `update_feature_flag` inspects; `none` stands for an
absent key. -/
structure FlagUpdate where
  enabled : Option Bool
  rollout_percentage : Option Int
  target_segments : Option (List String)
  environments : Option (List String)
deriving DecidableEq, Repr

/-- The four guarded field assignments of `update_feature_flag` on the flag
object found in the table. -/
def applyFlagUpdate (f : FeatureFlag) (u : FlagUpdate) : FeatureFlag :=
  { f with
    enabled := u.enabled.getD f.enabled
    rollout_percentage := u.rollout_percentage.getD f.rollout_percentage
    target_segments := u.target_segments.getD f.target_segments
    environments := u.environments.getD f.environments }

/-- `DeploymentAutomation.update_feature_flag`: an unknown name only logs and
returns, otherwise the named entry is mutated in place. -/
def update_feature_flag (flags : List (String × FeatureFlag)) (feature_name : String)
    (u : FlagUpdate) : List (String × FeatureFlag) :=
  if (flags.lookup feature_name).isSome then
    flags.map fun kv => if kv.1 == feature_name then (kv.1, applyFlagUpdate kv.2 u) else kv
  else
    flags

/-! ## Metrics validation (`_validate_canary_metrics`) -/

/-- One Prometheus query response as the code reads it: `data["status"]`
compared against `"success"`, and the numeric values of
`data["data"]["result"]` (the code uses the first entry). -/
structure MetricsResponse where
  success : Bool
  values : List Rat
deriving DecidableEq, Repr

/-- One threshold check of `_validate_canary_metrics`: only a successful
response with at least one data point is compared; the guarded block
returns False exactly when the value exceeds the threshold. -/
def metric_check (r : MetricsResponse) (threshold : Rat) : Bool :=
  match r.success, r.values with
  | true, v :: _ => if threshold < v then false else true
  | _, _ => true

/-- `DeploymentAutomation._validate_canary_metrics`.  `errorRateQuery` and
`latencyQuery` are the two provider responses, `none` when that call raises
or times out (the surrounding `except` returns False).  The second query is
only reached when the first check passes. -/
def validate_canary_metrics (errorRateQuery latencyQuery : Option MetricsResponse)
    (error_rate_threshold response_time_threshold : Rat) : Bool :=
  match errorRateQuery with
  | none => false
  | some r1 =>
    if metric_check r1 error_rate_threshold then
      match latencyQuery with
      | none => false
      | some r2 => metric_check r2 response_time_threshold
    else
      false

/-! ## Canary execution (`_execute_canary_deployment`, `execute_deployment`,
`_execute_rollback`, `_rollback_canary_deployment`) -/

/-- Observable actions of a canary run: writes of `plan.progress_percentage`
(`Rat`, because the ramp assigns `20 + traffic * 0.7`), canary deploys,
traffic-weight applications (`_route_traffic_to_canary`), promotions, and
canary-deployment removals; in program order. -/
inductive CanaryEvent
  | setProgress (p : Rat)
  | deployCanary (service : String)
  | routeTraffic (t : Int)
  | promote (service : String)
  | removeCanary (service : String)
deriving DecidableEq, Repr

/-- The section `deployment_strategies.canary` of the configuration. -/
structure CanaryConfig where
  initial_traffic_percentage : Int
  traffic_increment : Int
deriving DecidableEq, Repr

/-- Python `min(a, b)` on integers. -/
def pyMin (a b : Int) : Int :=
  if a ≤ b then a else b

/-- The ramp loop of `_execute_canary_deployment` (step 3): while the traffic
percentage is below 100, one validation outcome is consumed per cycle; on
success the traffic becomes `min 100 (traffic + inc)`, is applied, and the
progress is written as `20 + traffic * 0.7`; on failure the loop stops.
Returns the events, the loop outcome (`some true` = ran to completion,
`some false` = a validation failed, `none` = the supplied outcome list was
shorter than the run) and the final traffic percentage. -/
def canaryRamp (inc : Int) : List Bool → Int → List CanaryEvent × Option Bool × Int
  | [], traffic =>
    if traffic < 100 then ([], none, traffic) else ([], some true, traffic)
  | v :: rest, traffic =>
    if traffic < 100 then
      if v then
        let t := pyMin 100 (traffic + inc)
        let r := canaryRamp inc rest t
        (CanaryEvent.routeTraffic t :: CanaryEvent.setProgress (20 + (t : Rat) * (7 / 10)) :: r.1,
         r.2)
      else
        ([], some false, traffic)
    else
      ([], some true, traffic)

/-- The traffic-weight applications of an event trace. -/
def rampTraffics (events : List CanaryEvent) : List Int :=
  events.filterMap fun e =>
    match e with
    | CanaryEvent.routeTraffic t => some t
    | _ => none

/-- The consecutive pairs "traffic applied, then progress written" of an event
trace, with everything else skipped. -/
def rampCycles : List CanaryEvent → List (Int × Rat)
  | CanaryEvent.routeTraffic t :: CanaryEvent.setProgress p :: rest =>
    (t, p) :: rampCycles rest
  | _ :: rest => rampCycles rest
  | [] => []

/-- `DeploymentAutomation._execute_canary_deployment`: deploy the canary for
each service (progress 10), route the initial traffic (progress 20), run the
ramp loop, then on completion promote every service, remove its canary and
report progress 95 and 100.  `vs` is the sequence of
`_validate_canary_metrics` outcomes, one per ramp cycle. -/
def execute_canary_deployment (cfg : CanaryConfig) (services : List String)
    (vs : List Bool) : List CanaryEvent × Option Bool :=
  let pre := CanaryEvent.setProgress 10 :: services.map CanaryEvent.deployCanary ++
    [CanaryEvent.setProgress 20, CanaryEvent.routeTraffic cfg.initial_traffic_percentage]
  let r := canaryRamp cfg.traffic_increment vs cfg.initial_traffic_percentage
  match r.2.1 with
  | some true =>
    (pre ++ r.1 ++ CanaryEvent.setProgress 95 ::
      (services.flatMap fun s => [CanaryEvent.promote s, CanaryEvent.removeCanary s]) ++
      [CanaryEvent.setProgress 100],
     some true)
  | some false => (pre ++ r.1, some false)
  | none => (pre ++ r.1, none)

/-- `execute_deployment` on a canary plan: status IN_PROGRESS, the canary run,
then COMPLETED on success or FAILED on failure; on failure with
`rollback_on_failure`, `_execute_rollback` sets ROLLED_BACK and
`_rollback_canary_deployment` re-applies traffic weight 0 and removes every
canary deployment.  Returns the event trace and the sequence of writes to
`plan.status`; `none` when the validation-outcome list ran out. -/
def execute_deployment_with_canary (cfg : CanaryConfig) (services : List String)
    (rollback_on_failure : Bool) (vs : List Bool) :
    Option (List CanaryEvent × List DeploymentStatus) :=
  let run := execute_canary_deployment cfg services vs
  match run.2 with
  | some true =>
    some (run.1, [DeploymentStatus.IN_PROGRESS, DeploymentStatus.COMPLETED])
  | some false =>
    if rollback_on_failure then
      some (run.1 ++ CanaryEvent.routeTraffic 0 :: services.map CanaryEvent.removeCanary,
        [DeploymentStatus.IN_PROGRESS, DeploymentStatus.FAILED, DeploymentStatus.ROLLED_BACK])
    else
      some (run.1, [DeploymentStatus.IN_PROGRESS, DeploymentStatus.FAILED])
  | none => none

/-! ## Plan-level field writes of `execute_deployment` (terminal states) -/

/-- How one `execute_deployment` run ends: the dispatched executor returned
True, returned False, or raised with message `m`. -/
inductive ExecOutcome
  | success
  | failure
  | raised (m : String)

/-- A single mutation of the plan record. -/
inductive PlanWrite
  | status (s : DeploymentStatus)
  | progress (p : Rat)
  | errorMsg (m : String)
deriving DecidableEq, Repr

/-- The writes `execute_deployment` itself performs on the plan, in program
order (lines 265 and 282 to 299 of the source, plus the ROLLED_BACK write at
the top of `_execute_rollback`).  The executor body writes only
`progress_percentage` and happens between the IN_PROGRESS write and the
outcome writes; it is modelled separately by `execute_canary_deployment`. -/
def executeDeploymentWrites (rollback_on_failure : Bool) : ExecOutcome → List PlanWrite
  | ExecOutcome.success =>
    [PlanWrite.status DeploymentStatus.IN_PROGRESS,
     PlanWrite.status DeploymentStatus.COMPLETED, PlanWrite.progress 100]
  | ExecOutcome.failure =>
    PlanWrite.status DeploymentStatus.IN_PROGRESS ::
      PlanWrite.status DeploymentStatus.FAILED ::
      (if rollback_on_failure then [PlanWrite.status DeploymentStatus.ROLLED_BACK] else [])
  | ExecOutcome.raised m =>
    PlanWrite.status DeploymentStatus.IN_PROGRESS ::
      PlanWrite.status DeploymentStatus.FAILED :: PlanWrite.errorMsg m ::
      (if rollback_on_failure then [PlanWrite.status DeploymentStatus.ROLLED_BACK] else [])

/-- Whether a status is one of the three terminal statuses of the spec. -/
def statusTerminal : DeploymentStatus → Bool
  | DeploymentStatus.COMPLETED => true
  | DeploymentStatus.FAILED => true
  | DeploymentStatus.ROLLED_BACK => true
  | _ => false

/-- The status a plan write sets, if it is a status write. -/
def writtenStatus : PlanWrite → Option DeploymentStatus
  | PlanWrite.status s => some s
  | _ => none

/-- The terminal-state invariant as claimed: no write of any field may follow
a write of a terminal status. -/
def terminalWriteIsLast (l : List PlanWrite) : Prop :=
  ∀ i j, (hi : i < l.length) → (hj : j < l.length) → i < j →
    ∀ s, writtenStatus (l.get ⟨i, hi⟩) = some s → statusTerminal s = true → False

/-! ## Plan creation (`DeploymentPlan`, `create_deployment_plan`) -/

/-- The `DeploymentPlan` dataclass.  The wall-clock `created_at` timestamp is
not modelled; no verified property reads it. -/
structure DeploymentPlan where
  plan_id : String
  name : String
  strategy : DeploymentStrategy
  source_image : String
  target_environment : EnvironmentType
  services : List String
  rollback_on_failure : Bool
  validation_checks : List String
  timeout_seconds : Int
  created_by : String
  status : DeploymentStatus
  progress_percentage : Rat
  error_message : Option String
deriving DecidableEq, Repr

/-- `DeploymentAutomation.create_deployment_plan`.  Optional arguments model
`kwargs.get` with the defaults of the source; `now` is `int(time.time())`.
The two enum conversions are evaluated in the order the `DeploymentPlan(...)`
keywords are written, and an invalid value raises `ValueError` before the
plan is stored, so the registry is returned unchanged in that case.  Note the
source quirk: the id string uses the default `"rolling"` while the enum
conversion uses the default `"rolling_update"`. -/
def create_deployment_plan (registry : List (String × DeploymentPlan)) (now : Int)
    (name strategy : Option String) (source_image target_environment : String)
    (services : Option (List String)) (rollback_on_failure : Option Bool)
    (validation_checks : Option (List String)) (timeout_seconds : Option Int)
    (created_by : Option String) :
    Except String String × List (String × DeploymentPlan) :=
  let planId := "deploy_" ++ toString now ++ "_" ++ strategy.getD "rolling"
  match strategyOfString (strategy.getD "rolling_update") with
  | none => (Except.error "ValueError: invalid DeploymentStrategy", registry)
  | some strat =>
    match environmentOfString target_environment with
    | none => (Except.error "ValueError: invalid EnvironmentType", registry)
    | some env =>
      let plan : DeploymentPlan :=
        { plan_id := planId
          name := name.getD ("Deployment " ++ planId)
          strategy := strat
          source_image := source_image
          target_environment := env
          services := services.getD []
          rollback_on_failure := rollback_on_failure.getD true
          validation_checks := validation_checks.getD []
          timeout_seconds := timeout_seconds.getD 1800
          created_by := created_by.getD "system"
          status := DeploymentStatus.PENDING
          progress_percentage := 0
          error_message := none }
      (Except.ok planId, registry ++ [(planId, plan)])

/-! # Claims -/

/-- Claim C1, counterexample.  Both provider queries return a successful
response that carries no data points, yet `_validate_canary_metrics` returns
success: the threshold blocks are guarded by `data["data"]["result"]` being
non-empty, so an empty result set is skipped rather than treated as a
failure.  This refutes the claim that validation returns FAILED whenever a
queried metric has no data points. -/
theorem validate_canary_metrics_no_data_passes :
    validate_canary_metrics (some ⟨true, []⟩) (some ⟨true, []⟩) 5 3 = true := by
  decide

/-- Claim C1, amended: if either provider call raises or times out, or a
returned first data point exceeds its threshold, `_validate_canary_metrics`
returns FAILED; but a successful response with no data points skips that
threshold check instead of failing it. -/
theorem validate_canary_metrics_fail_closed (q1 q2 : Option MetricsResponse)
    (e l : Rat) :
    validate_canary_metrics none q2 e l = false ∧
    validate_canary_metrics q1 none e l = false ∧
    (∀ v vs r2, e < v →
      validate_canary_metrics (some ⟨true, v :: vs⟩) r2 e l = false) ∧
    (∀ r1 v vs, metric_check r1 e = true → l < v →
      validate_canary_metrics (some r1) (some ⟨true, v :: vs⟩) e l = false) ∧
    validate_canary_metrics (some ⟨true, []⟩) (some ⟨true, []⟩) e l = true := by
  refine ⟨rfl, ?_, ?_, ?_, rfl⟩
  · cases q1 with
    | none => rfl
    | some r1 => simp [validate_canary_metrics]
  · intro v vs r2 hv
    simp [validate_canary_metrics, metric_check, if_neg, hv]
  · intro r1 v vs h1 h2
    simp [validate_canary_metrics, h1, metric_check, h2]

/-- Claim C4: for a canary plan with `rollback_on_failure` set, whenever the
canary run aborts on a failed metrics validation the orchestrator appends the
rollback actions — traffic weight re-applied as 0 and every canary
deployment removed — and the status writes end IN_PROGRESS, FAILED,
ROLLED_BACK; in particular for scenario B (initial 10, increment 20, error
rate 2 passing on cycle 1, error rate 8 against threshold 5 failing on
cycle 2) the full trace is as listed and the final status is ROLLED_BACK. -/
theorem canary_scenarioB_rollback :
    (∀ (cfg : CanaryConfig) (services : List String) (vs : List Bool),
      (execute_canary_deployment cfg services vs).2 = some false →
      execute_deployment_with_canary cfg services true vs =
        some ((execute_canary_deployment cfg services vs).1 ++
            CanaryEvent.routeTraffic 0 :: services.map CanaryEvent.removeCanary,
          [DeploymentStatus.IN_PROGRESS, DeploymentStatus.FAILED,
           DeploymentStatus.ROLLED_BACK])) ∧
    execute_deployment_with_canary ⟨10, 20⟩ ["video-processor"] true
      [validate_canary_metrics (some ⟨true, [2]⟩) (some ⟨true, [1]⟩) 5 3,
       validate_canary_metrics (some ⟨true, [8]⟩) (some ⟨true, [1]⟩) 5 3] =
    some ([CanaryEvent.setProgress 10, CanaryEvent.deployCanary "video-processor",
           CanaryEvent.setProgress 20, CanaryEvent.routeTraffic 10,
           CanaryEvent.routeTraffic 30, CanaryEvent.setProgress 41,
           CanaryEvent.routeTraffic 0, CanaryEvent.removeCanary "video-processor"],
          [DeploymentStatus.IN_PROGRESS, DeploymentStatus.FAILED,
           DeploymentStatus.ROLLED_BACK]) := by
  constructor
  · intro cfg services vs habort
    simp [execute_deployment_with_canary, habort]
  · have h1 : validate_canary_metrics (some ⟨true, [2]⟩) (some ⟨true, [1]⟩) 5 3 = true := by
      decide
    have h2 : validate_canary_metrics (some ⟨true, [8]⟩) (some ⟨true, [1]⟩) 5 3 = false := by
      decide
    norm_num [execute_deployment_with_canary, execute_canary_deployment, canaryRamp,
      pyMin, h1, h2]

/-- Claim C2, counterexample.  On a failed run with `rollback_on_failure`,
`execute_deployment` writes status FAILED and then `_execute_rollback` writes
status ROLLED_BACK: a write follows a write of the terminal status FAILED,
so the claimed terminal-state invariant does not hold of the code. -/
theorem failed_then_rolled_back :
    ¬ terminalWriteIsLast (executeDeploymentWrites true ExecOutcome.failure) := by
  intro hinv
  exact hinv 1 2 (by decide) (by decide) (by decide) DeploymentStatus.FAILED
    (by decide) (by decide)

/-- Claim C2, amended: in the write sequence of `execute_deployment`, a status
of ROLLED_BACK is final; after COMPLETED the one remaining write is
`progress := 100`; after FAILED the only further writes are the error-message
record (when the executor raised) and the transition to ROLLED_BACK (exactly
when `rollback_on_failure` is set). -/
theorem execute_deployment_terminal_writes (rb : Bool) (o : ExecOutcome) :
    (∀ i, (executeDeploymentWrites rb o)[i]? =
        some (PlanWrite.status DeploymentStatus.ROLLED_BACK) →
      i + 1 = (executeDeploymentWrites rb o).length) ∧
    (∀ i, (executeDeploymentWrites rb o)[i]? =
        some (PlanWrite.status DeploymentStatus.COMPLETED) →
      (executeDeploymentWrites rb o).drop (i + 1) = [PlanWrite.progress 100]) ∧
    (∀ i, (executeDeploymentWrites rb o)[i]? =
        some (PlanWrite.status DeploymentStatus.FAILED) →
      ((executeDeploymentWrites rb o).drop (i + 1) = [] ∧ rb = false) ∨
      ((executeDeploymentWrites rb o).drop (i + 1) =
          [PlanWrite.status DeploymentStatus.ROLLED_BACK] ∧ rb = true) ∨
      (∃ m, (executeDeploymentWrites rb o).drop (i + 1) = [PlanWrite.errorMsg m] ∧
        rb = false) ∨
      (∃ m, (executeDeploymentWrites rb o).drop (i + 1) =
          [PlanWrite.errorMsg m, PlanWrite.status DeploymentStatus.ROLLED_BACK] ∧
        rb = true)) := by
  cases rb <;> cases o <;>
    refine ⟨?_, ?_, ?_⟩ <;> intro i <;> rcases i with _ | _ | _ | _ | i <;>
    simp_all [executeDeploymentWrites]

/-- Helper: along the ramp loop, starting at most at 100 with a non-negative
increment, the applied traffic weights form a non-decreasing chain bounded by
100. -/
theorem canaryRamp_traffic_bounds (inc : Int) (hinc : 0 ≤ inc) :
    ∀ (vs : List Bool) (traffic : Int), traffic ≤ 100 →
      List.Chain' (· ≤ ·) (traffic :: rampTraffics (canaryRamp inc vs traffic).1) ∧
      ∀ t ∈ rampTraffics (canaryRamp inc vs traffic).1, t ≤ 100 := by
  intro vs
  induction vs with
  | nil =>
    intro traffic htr
    unfold canaryRamp
    split <;> simp [rampTraffics]
  | cons v rest ih =>
    intro traffic htr
    unfold canaryRamp
    split
    · cases v with
      | false => simp [rampTraffics]
      | true =>
        have hle : pyMin 100 (traffic + inc) ≤ 100 := by
          unfold pyMin
          split <;> omega
        have hmono : traffic ≤ pyMin 100 (traffic + inc) := by
          unfold pyMin
          split <;> omega
        have h := ih (pyMin 100 (traffic + inc)) hle
        simp only [rampTraffics, List.filterMap_cons] at h ⊢
        refine ⟨List.chain'_cons.mpr ⟨hmono, h.1⟩, ?_⟩
        intro t ht
        rcases List.mem_cons.mp ht with h1 | h1
        · omega
        · exact h.2 t h1
    · simp [rampTraffics]

/-- Claim C5: during a canary run the traffic weight only moves by
`traffic := min 100 (traffic + increment)` after a passing validation, so
(with the configured non-negative increment and an initial weight of at most
100) the applied weights are non-decreasing and never exceed 100; and in
scenario A (initial 10, increment 20, all validations passing) the weight
reaches 100 after exactly five ramp cycles and the plan ends COMPLETED. -/
theorem canary_traffic_monotone (vs : List Bool) (init inc : Int)
    (hinc : 0 ≤ inc) (hinit : init ≤ 100) :
    List.Chain' (· ≤ ·) (init :: rampTraffics (canaryRamp inc vs init).1) ∧
    (∀ t ∈ rampTraffics (canaryRamp inc vs init).1, t ≤ 100) ∧
    rampTraffics (canaryRamp 20 (List.replicate 5 true) 10).1 =
      [30, 50, 70, 90, 100] ∧
    (canaryRamp 20 (List.replicate 5 true) 10).2.1 = some true ∧
    (execute_deployment_with_canary ⟨10, 20⟩ ["svc-a", "svc-b"] true
        (List.replicate 5 true)).map Prod.snd =
      some [DeploymentStatus.IN_PROGRESS, DeploymentStatus.COMPLETED] :=
  ⟨(canaryRamp_traffic_bounds inc hinc vs init hinit).1,
   (canaryRamp_traffic_bounds inc hinc vs init hinit).2,
   by decide, by decide, by decide⟩

/-- Witness for `canary_traffic_monotone` at the scenario A configuration. -/
theorem canary_traffic_monotone_witness :
    List.Chain' (· ≤ ·)
      ((10 : Int) :: rampTraffics (canaryRamp 20 (List.replicate 5 true) 10).1) ∧
    (∀ t ∈ rampTraffics (canaryRamp 20 (List.replicate 5 true) 10).1, t ≤ 100) ∧
    rampTraffics (canaryRamp 20 (List.replicate 5 true) 10).1 =
      [30, 50, 70, 90, 100] ∧
    (canaryRamp 20 (List.replicate 5 true) 10).2.1 = some true ∧
    (execute_deployment_with_canary ⟨10, 20⟩ ["svc-a", "svc-b"] true
        (List.replicate 5 true)).map Prod.snd =
      some [DeploymentStatus.IN_PROGRESS, DeploymentStatus.COMPLETED] :=
  canary_traffic_monotone (List.replicate 5 true) 10 20 (by decide) (by decide)

/-- Helper: the ramp trace is exactly a sequence of cycles, each a traffic
application immediately followed by a progress write of
`20 + traffic * 0.7`. -/
theorem canaryRamp_cycle_shape (inc : Int) :
    ∀ (vs : List Bool) (traffic : Int),
      (canaryRamp inc vs traffic).1 =
        (rampCycles (canaryRamp inc vs traffic).1).flatMap
          (fun c => [CanaryEvent.routeTraffic c.1, CanaryEvent.setProgress c.2]) ∧
      ∀ c ∈ rampCycles (canaryRamp inc vs traffic).1,
        c.2 = 20 + (c.1 : Rat) * (7 / 10) := by
  intro vs
  induction vs with
  | nil =>
    intro traffic
    unfold canaryRamp
    split <;> simp [rampCycles]
  | cons v rest ih =>
    intro traffic
    unfold canaryRamp
    split
    · cases v with
      | false => simp [rampCycles]
      | true =>
        have h := ih (pyMin 100 (traffic + inc))
        simp only [rampCycles, List.flatMap_cons] at h ⊢
        refine ⟨by simpa using h.1, ?_⟩
        intro c hc
        rcases List.mem_cons.mp hc with h1 | h1
        · subst h1; rfl
        · exact h.2 c h1
    · simp [rampCycles]

/-- Claim C6: at every point of the canary ramp loop, the progress written
right after the traffic weight is raised to `t` is exactly `20 + 0.7 * t`
(the cycles of the ramp trace are precisely those pairs), and a run that
completes the loop ends with the promotion-time progress write of 100. -/
theorem canary_progress_weighting (vs : List Bool) (cfg : CanaryConfig)
    (services : List String) :
    (∀ c ∈ rampCycles
        (canaryRamp cfg.traffic_increment vs cfg.initial_traffic_percentage).1,
      c.2 = 20 + (c.1 : Rat) * (7 / 10)) ∧
    (canaryRamp cfg.traffic_increment vs cfg.initial_traffic_percentage).1 =
      (rampCycles
        (canaryRamp cfg.traffic_increment vs cfg.initial_traffic_percentage).1).flatMap
        (fun c => [CanaryEvent.routeTraffic c.1, CanaryEvent.setProgress c.2]) ∧
    ((execute_canary_deployment cfg services vs).2 = some true →
      (execute_canary_deployment cfg services vs).1.getLast? =
        some (CanaryEvent.setProgress 100)) := by
  refine ⟨(canaryRamp_cycle_shape cfg.traffic_increment vs
      cfg.initial_traffic_percentage).2,
    (canaryRamp_cycle_shape cfg.traffic_increment vs
      cfg.initial_traffic_percentage).1, ?_⟩
  intro hdone
  unfold execute_canary_deployment at hdone ⊢
  rcases hr : (canaryRamp cfg.traffic_increment vs cfg.initial_traffic_percentage).2.1
    with _ | b
  · simp [hr] at hdone
  · cases b with
    | false => simp [hr] at hdone
    | true =>
      simp only [hr]
      exact List.getLast?_concat _

/-- Claim C3, counterexample.  A flag with `enabled = False`: user "u1"
(bucket 0 under the given hash) is enabled at `rollout_percentage = 50`, but
raising the percentage to 100 — all other fields unchanged — disables the
user, because at 100 the code returns `flag.enabled` instead of the bucket
comparison.  This refutes monotonicity "up to and including 100". -/
theorem rollout_monotonic_counterexample :
    is_feature_enabled
      [("f", { name := "f", enabled := false, rollout_percentage := 50,
               target_segments := ["all"], environments := ["production"],
               conditions := [] })]
      (fun _ => 0) 0 "f" (some "u1") none none = true ∧
    is_feature_enabled
      [("f", { name := "f", enabled := false, rollout_percentage := 100,
               target_segments := ["all"], environments := ["production"],
               conditions := [] })]
      (fun _ => 0) 0 "f" (some "u1") none none = false := by
  decide

/-- Claim C3, amended: for a fixed identified (non-empty) user and fixed
segment and environment arguments, if `is_feature_enabled` returns true at
`rollout_percentage = p` then it also returns true at every higher
percentage strictly below 100; at exactly 100 the call returns
`flag.enabled`, so monotonicity extends to 100 precisely when the flag's
`enabled` field is true. -/
theorem rollout_monotonic (F : FeatureFlag) (h : String → Int) (r r' : Int)
    (nm u : String) (seg env : Option String) (p p' : Int)
    (hu : u ≠ "") (hpp : p < p') (hp : p' ≤ 100)
    (hen : p' < 100 ∨ F.enabled = true)
    (htrue : is_feature_enabled [(nm, { F with rollout_percentage := p })] h r nm
      (some u) seg env = true) :
    is_feature_enabled [(nm, { F with rollout_percentage := p' })] h r' nm
      (some u) seg env = true := by
  have hue : (u == "") = false := beq_eq_false_iff_ne.mpr hu
  simp only [is_feature_enabled, List.lookup_cons, beq_self_eq_true, truthy, hue,
    Bool.not_false, Option.getD_some, if_true] at htrue ⊢
  split at htrue
  · cases htrue
  next hc1 =>
    rw [if_neg hc1]
    split at htrue
    · cases htrue
    next hc2 =>
      rw [if_neg hc2]
      by_cases hplt : p < 100
      · rw [if_pos hplt] at htrue
        have hbucket : h u % 100 < p := by
          simpa using htrue
        by_cases hplt' : p' < 100
        · rw [if_pos hplt']
          simp only [decide_eq_true_eq]
          omega
        · have henb : F.enabled = true := by
            rcases hen with h1 | h1
            · exact absurd h1 hplt'
            · exact h1
          rw [if_neg hplt']
          exact henb
      · omega

/-- Witness for `rollout_monotonic`: user "u1" with bucket 0 is enabled at
percentage 30 on an `enabled = True` flag, hence also at percentage 100. -/
theorem rollout_monotonic_witness :
    is_feature_enabled
      [("f", { name := "f", enabled := true, rollout_percentage := 100,
               target_segments := ["all"], environments := ["production"],
               conditions := [] })]
      (fun _ => 0) 0 "f" (some "u1") none none = true :=
  rollout_monotonic
    { name := "f", enabled := true, rollout_percentage := 30,
      target_segments := ["all"], environments := ["production"], conditions := [] }
    (fun _ => 0) 0 0 "f" "u1" none none 30 100
    (by decide) (by decide) (by decide) (Or.inr rfl) (by decide)

/-- Claim C8, counterexample.  The Python guard `if user_id:` is a truthiness
test, so the empty string — a non-null `user_id` — falls to the
anonymous-user path and the result depends on the per-call random draw: on
flag `ai_inference_v2` (rollout 25) a draw of 0 enables and a draw of 99
disables, two different results for two calls with identical arguments. -/
theorem flag_determinism_counterexample :
    is_feature_enabled load_feature_flags (fun _ => 0) 0 "ai_inference_v2"
      (some "") none none = true ∧
    is_feature_enabled load_feature_flags (fun _ => 0) 99 "ai_inference_v2"
      (some "") none none = false := by
  decide

/-- Claim C8, amended: for every flag and every call with a non-empty
`user_id`, the result of `is_feature_enabled` does not depend on the random
draw, so repeated calls with the same arguments and unchanged flag state
return the same result (user ids that are absent or empty take the random
anonymous path). -/
theorem flag_determinism (flags : List (String × FeatureFlag)) (h : String → Int)
    (r1 r2 : Int) (nm u : String) (seg env : Option String) (hu : u ≠ "") :
    is_feature_enabled flags h r1 nm (some u) seg env =
    is_feature_enabled flags h r2 nm (some u) seg env := by
  have hue : (u == "") = false := beq_eq_false_iff_ne.mpr hu
  simp only [is_feature_enabled]
  cases flags.lookup nm with
  | none => rfl
  | some flag => simp [truthy, hue]

/-- Witness for `flag_determinism`: the draws 3 and 97 give the same result
for user "alice" on flag `ai_inference_v2`. -/
theorem flag_determinism_witness :
    is_feature_enabled load_feature_flags (fun _ => 7) 3 "ai_inference_v2"
      (some "alice") none none =
    is_feature_enabled load_feature_flags (fun _ => 7) 97 "ai_inference_v2"
      (some "alice") none none :=
  flag_determinism load_feature_flags (fun _ => 7) 3 97 "ai_inference_v2" "alice"
    none none (by decide)

/-- The negation of claim C9's salting property, as a statement about the
observable decisions: two flags that are distinct in name (and identical in
the other fields) give every identified user the same decision at every
rollout percentage under every hash function — that is, they assign every
user the identical bucket. -/
def identicalBucketingAcrossFlags : Prop :=
  ∀ (h : String → Int) (r : Int) (u : String) (p : Int),
    is_feature_enabled
      [("flag_a", { name := "flag_a", enabled := true, rollout_percentage := p,
                    target_segments := ["all"], environments := ["production"],
                    conditions := [] }),
       ("flag_b", { name := "flag_b", enabled := true, rollout_percentage := p,
                    target_segments := ["all"], environments := ["production"],
                    conditions := [] })]
      h r "flag_a" (some u) none none =
    is_feature_enabled
      [("flag_a", { name := "flag_a", enabled := true, rollout_percentage := p,
                    target_segments := ["all"], environments := ["production"],
                    conditions := [] }),
       ("flag_b", { name := "flag_b", enabled := true, rollout_percentage := p,
                    target_segments := ["all"], environments := ["production"],
                    conditions := [] })]
      h r "flag_b" (some u) none none

/-- Claim C9, counterexample.  The bucket in `is_feature_enabled` is
`hash(user_id) % 100` with no flag-name salt, so the two distinct flags
`flag_a` and `flag_b` assign every user the identical bucket: the decisions
agree for every hash function, user and rollout percentage — refuting that
the bucket depends on which flag is being evaluated. -/
theorem flag_bucket_salting_counterexample : identicalBucketingAcrossFlags := by
  intro h r u p
  rfl

/-- Claim C9, amended: the bucket for an identified user is
`hash(user_id) % 100`, not salted with the flag name: the evaluation result
is independent of the flag's name (identical buckets across flags —
correlated bucketing), while remaining stable across calls for the same
flag and user (independent of the per-call random draw). -/
theorem flag_bucket_unsalted (G : FeatureFlag) (na nb : String) (h : String → Int)
    (r r' : Int) (u : String) (seg env : Option String) (hu : u ≠ "") :
    is_feature_enabled [(na, { G with name := na })] h r na (some u) seg env =
    is_feature_enabled [(nb, { G with name := nb })] h r' nb (some u) seg env := by
  have hue : (u == "") = false := beq_eq_false_iff_ne.mpr hu
  simp only [is_feature_enabled, List.lookup_cons, beq_self_eq_true, truthy, hue,
    Bool.not_false, Option.getD_some, if_true]

/-- Witness for `flag_bucket_unsalted`: flags `flag_a` and `flag_b` with the
same non-name fields decide user "u7" identically, under different random
draws. -/
theorem flag_bucket_unsalted_witness :
    is_feature_enabled
      [("flag_a", { name := "flag_a", enabled := true, rollout_percentage := 40,
                    target_segments := ["all"], environments := ["production"],
                    conditions := [] })]
      (fun _ => 11) 0 "flag_a" (some "u7") none none =
    is_feature_enabled
      [("flag_b", { name := "flag_b", enabled := true, rollout_percentage := 40,
                    target_segments := ["all"], environments := ["production"],
                    conditions := [] })]
      (fun _ => 11) 55 "flag_b" (some "u7") none none :=
  flag_bucket_unsalted
    { name := "", enabled := true, rollout_percentage := 40,
      target_segments := ["all"], environments := ["production"], conditions := [] }
    "flag_a" "flag_b" (fun _ => 11) 0 55 "u7" none none (by decide)

/-- Claim C7, counterexample.  `create_deployment_plan` performs no check on
the service list: with a valid strategy and environment but an explicitly
empty `services` list it returns a plan id and registers a PENDING plan
instead of raising a validation error. -/
theorem create_plan_empty_services_accepted :
    (create_deployment_plan [] 0 none (some "canary") "img" "production"
      (some []) none none none none).1 = Except.ok "deploy_0_canary" ∧
    ((create_deployment_plan [] 0 none (some "canary") "img" "production"
      (some []) none none none none).2.map fun kv => (kv.1, kv.2.status, kv.2.services)) =
      [("deploy_0_canary", DeploymentStatus.PENDING, [])] := by
  exact ⟨rfl, rfl⟩

/-- Claim C7, amended: `create_deployment_plan` fails (with the `ValueError`
the spec calls `ValidationError`) exactly when the strategy or the target
environment is not a member of the closed enums; an empty service list is
accepted without validation.  On failure no plan id is returned and the
registry is unchanged; otherwise the returned id maps to a newly appended
plan whose status is PENDING. -/
theorem create_plan_validation (registry : List (String × DeploymentPlan))
    (now : Int) (name strategy : Option String) (img tgt : String)
    (services : Option (List String)) (rb : Option Bool)
    (vc : Option (List String)) (ts : Option Int) (cb : Option String) :
    ((create_deployment_plan registry now name strategy img tgt services rb vc
        ts cb).1.isOk = true ↔
      (strategyOfString (strategy.getD "rolling_update")).isSome = true ∧
      (environmentOfString tgt).isSome = true) ∧
    ((create_deployment_plan registry now name strategy img tgt services rb vc
        ts cb).1.isOk = false →
      (create_deployment_plan registry now name strategy img tgt services rb vc
        ts cb).2 = registry) ∧
    (∀ pid, (create_deployment_plan registry now name strategy img tgt services
        rb vc ts cb).1 = Except.ok pid →
      ∃ plan, (create_deployment_plan registry now name strategy img tgt services
          rb vc ts cb).2 = registry ++ [(pid, plan)] ∧
        plan.status = DeploymentStatus.PENDING ∧
        plan.services = services.getD []) := by
  cases hs : strategyOfString (strategy.getD "rolling_update") with
  | none => simp [create_deployment_plan, hs, Except.isOk, Except.toBool]
  | some strat =>
    cases he : environmentOfString tgt with
    | none => simp [create_deployment_plan, hs, he, Except.isOk, Except.toBool]
    | some env =>
      refine ⟨by simp [create_deployment_plan, hs, he, Except.isOk, Except.toBool], ?_, ?_⟩
      · simp [create_deployment_plan, hs, he, Except.isOk, Except.toBool]
      · intro pid hpid
        simp only [create_deployment_plan, hs, he] at hpid ⊢
        cases hpid
        exact ⟨_, rfl, rfl, rfl⟩

/-- Helper: a key that appears in an association list is found by lookup. -/
theorem lookup_isSome_of_mem {k : String} {f : FeatureFlag}
    {flags : List (String × FeatureFlag)} (hmem : (k, f) ∈ flags) :
    (flags.lookup k).isSome = true := by
  induction flags with
  | nil => cases hmem
  | cons kv rest ih =>
    obtain ⟨k1, f1⟩ := kv
    rcases List.mem_cons.mp hmem with h1 | h1
    · cases h1
      simp [List.lookup_cons]
    · rw [List.lookup_cons]
      cases hk : k == k1 <;> simp [ih h1]

/-- Claim C10: `update_feature_flag` touches at most the fields `enabled`,
`rollout_percentage`, `target_segments` and `environments` of the named
flag — its `name` and `conditions` and every other entry of the map are
unchanged, no entry is added or removed — and an unknown flag name leaves
the whole map unchanged (the call only logs; it raises nothing, being total
by construction). -/
theorem update_feature_flag_frame (flags : List (String × FeatureFlag))
    (nm : String) (u : FlagUpdate) :
    ((flags.lookup nm).isSome = false → update_feature_flag flags nm u = flags) ∧
    (update_feature_flag flags nm u).length = flags.length ∧
    (∀ k f, (k, f) ∈ flags → k ≠ nm → (k, f) ∈ update_feature_flag flags nm u) ∧
    (∀ f, (nm, f) ∈ flags →
      (nm, applyFlagUpdate f u) ∈ update_feature_flag flags nm u) ∧
    (∀ f, (applyFlagUpdate f u).name = f.name ∧
      (applyFlagUpdate f u).conditions = f.conditions) := by
  refine ⟨?_, ?_, ?_, ?_, fun f => ⟨rfl, rfl⟩⟩
  · intro hnone
    simp [update_feature_flag, hnone]
  · by_cases hexists : (flags.lookup nm).isSome = true
    · simp [update_feature_flag, hexists]
    · simp only [Bool.not_eq_true] at hexists
      simp [update_feature_flag, hexists]
  · intro k f hmem hk
    by_cases hexists : (flags.lookup nm).isSome = true
    · rw [update_feature_flag, if_pos hexists]
      refine List.mem_map.mpr ⟨(k, f), hmem, ?_⟩
      have : (k == nm) = false := beq_eq_false_iff_ne.mpr hk
      simp [this]
    · simp only [Bool.not_eq_true] at hexists
      simpa [update_feature_flag, hexists] using hmem
  · intro f hmem
    rw [update_feature_flag, if_pos (lookup_isSome_of_mem hmem)]
    refine List.mem_map.mpr ⟨(nm, f), hmem, ?_⟩
    simp
